import Mathlib

set_option autoImplicit false

/- Shallow embedding of the pyqtgraph fragment under verification:
   namedColorManager.py, namedPen.py, graphicsItems/TargetItem.py and
   widgets/PathButton.py.

   Python dicts keyed by color names are association lists kept in insertion
   order.  QColor objects live on an explicit heap (address to color value),
   so that in-place mutation of a QColor (QColor.setAlpha) is visible through
   every dict entry and pen that aliases the same object, exactly as Python
   object identity makes it. -/

/-- A QColor value: red, green, blue and alpha channels. -/
structure QColor where
  r : Nat
  g : Nat
  b : Nat
  a : Nat
  deriving DecidableEq, Repr, Inhabited

/-- QColor.setAlpha: replace the alpha channel of a color value in place. -/
def setAlphaC (c : QColor) (al : Nat) : QColor :=
  { c with a := al }

/-- Python exceptions raised by this fragment. -/
inductive PyError where
  | valueError (msg : String)
  | typeError (msg : String)
  | keyError (key : String)
  | nameError (missing : String)
  deriving DecidableEq, Repr

/-- Heap address of a QColor object (Python object identity). -/
abbrev Addr := Nat

/-- The heap of QColor objects. -/
abbrev Heap := Addr → QColor

/-- A Python dict with string keys: an association list in insertion order,
with at most one entry per key (Python dicts never hold duplicate keys). -/
abbrev PyDict (A : Type) := List (String × A)

/-- The keys of a dict, in insertion order. -/
def dictKeys {A : Type} (d : PyDict A) : List String :=
  d.map Prod.fst

/-- dict.__setitem__ : overwrite the value if the key exists, else append. -/
def dictInsert {A : Type} (d : PyDict A) (k : String) (v : A) : PyDict A :=
  if (dictKeys d).contains k then
    d.map (fun p => if p.1 = k then (k, v) else p)
  else
    d ++ [(k, v)]

/-- dict.update(e) : insert every item of e, in iteration order. -/
def dictUpdate {A : Type} (d e : PyDict A) : PyDict A :=
  e.foldl (fun acc p => dictInsert acc p.1 p.2) d

/- namedColorManager.py ----------------------------------------------------

   DEFAULT_COLORS is built in three steps in the source:
   1. thirteen literal QColor entries (b, g, r, c, m, y, k, w, d, l, s,
      gr_acc, gr_reg);
   2. four functional entries that alias existing QColor objects:
      gr_fg and gr_txt alias the object of d, gr_bg the object of k,
      gr_hov the object of r;
   3. twelve plot colors p0 .. pB, each aliasing the object of one of
      l, y, r, m, b, c, g, d, d, d, d, d.
   We give the thirteen literal objects heap addresses 0 .. 12 in order and
   unroll the two loops, so aliasing entries share the address of the object
   they alias. -/

/-- The thirteen literal QColor objects of DEFAULT_COLORS, in source order;
the position in this list is the heap address of the object. -/
def baseColorList : List (String × QColor) :=
  [ ("b", ⟨0, 0, 255, 255⟩),
    ("g", ⟨0, 255, 0, 255⟩),
    ("r", ⟨255, 0, 0, 255⟩),
    ("c", ⟨0, 255, 255, 255⟩),
    ("m", ⟨255, 0, 255, 255⟩),
    ("y", ⟨255, 255, 0, 255⟩),
    ("k", ⟨0, 0, 0, 255⟩),
    ("w", ⟨255, 255, 255, 255⟩),
    ("d", ⟨150, 150, 150, 255⟩),
    ("l", ⟨200, 200, 200, 255⟩),
    ("s", ⟨100, 100, 150, 255⟩),
    ("gr_acc", ⟨200, 200, 100, 255⟩),
    ("gr_reg", ⟨0, 0, 255, 50⟩) ]

/-- The heap holding the QColor objects of the default palette. -/
def defaultHeap : Heap :=
  fun i => (((baseColorList.get? i).map Prod.snd).getD ⟨0, 0, 0, 255⟩)

/-- DEFAULT_COLORS as name-to-object map: the thirteen literals at their own
addresses, then the functional aliases, then the twelve plot colors. -/
def DEFAULT_COLORS : PyDict Addr :=
  [ ("b", 0), ("g", 1), ("r", 2), ("c", 3), ("m", 4), ("y", 5), ("k", 6),
    ("w", 7), ("d", 8), ("l", 9), ("s", 10), ("gr_acc", 11), ("gr_reg", 12),
    ("gr_fg", 8), ("gr_bg", 6), ("gr_txt", 8), ("gr_hov", 2),
    ("p0", 9), ("p1", 5), ("p2", 2), ("p3", 4), ("p4", 0), ("p5", 3),
    ("p6", 1), ("p7", 8), ("p8", 8), ("p9", 8), ("pA", 8), ("pB", 8) ]

/-- Identity of an object registered for paletteChange callbacks. -/
abbrev ObjId := Nat

/-- State of the NamedColorManager: the shared functions.Colors dict
(self.color_dic, name to QColor object) and the weak set of registered
objects, modelled as the list of still-alive registrations. -/
structure NCMState where
  color_dic : PyDict Addr
  registered_objects : List ObjId
  deriving DecidableEq, Repr

/-- Observable effects of redefinePalette: paletteChange callback invocations
and the paletteHasChangedSignal emission, in program order. -/
inductive NCMEvent where
  | call (obj : ObjId) (arg : PyDict Addr)
  | hasChangedSignal
  deriving DecidableEq, Repr

/-- NamedColorManager.register: WeakSet.add has set semantics. -/
def register (st : NCMState) (obj : ObjId) : NCMState :=
  if obj ∈ st.registered_objects then st
  else { st with registered_objects := st.registered_objects ++ [obj] }

/-- The test of the validation loop of redefinePalette:
`if key not in color_dic`. -/
def missingIn {A : Type} (d : PyDict A) (k : String) : Bool :=
  !((dictKeys d).contains k)

/-- NamedColorManager.redefinePalette.  Returns the outcome (normal return or
raised exception), the state after the call, and the trace of callback
invocations and signal emissions it performed. -/
def redefinePalette (st : NCMState) (color_dic : Option (PyDict Addr)) :
    Except PyError Unit × NCMState × List NCMEvent :=
  match color_dic with
  | some d =>
    -- `for key in DEFAULT_COLORS: if key not in color_dic: raise ValueError`
    match (dictKeys DEFAULT_COLORS).find? (missingIn d) with
    | some k =>
      (.error (.valueError ("Palette definition is missing " ++ k)), st, [])
    | none =>
      -- self.color_dic.clear(); self.color_dic.update(color_dic)
      let newDic := dictUpdate [] d
      ( .ok (),
        { st with color_dic := newDic },
        st.registered_objects.map (fun o => NCMEvent.call o newDic)
          ++ [NCMEvent.hasChangedSignal] )
  | none =>
    -- The missing-key loop is skipped for None.  self.color_dic.clear() runs,
    -- then self.color_dic.update(None) raises TypeError before any callback.
    (.error (.typeError "NoneType object is not iterable"),
     { st with color_dic := [] }, [])

/- namedPen.py -------------------------------------------------------------

   A NamedPen is a QPen.  The QPen base class stores a concrete color by
   value (super().setColor copies the QColor), and NamedPen adds the
   _identifier field holding the (name, alpha) pair. -/

/-- The world a NamedPen lives in: the QColor heap, the shared
functions.Colors dict, and the registration list of the color manager. -/
structure World where
  heap : Heap
  colors : PyDict Addr
  registered_objects : List ObjId

/-- The state of one NamedPen: self._identifier = (name, alpha) and the
QColor stored by value in the QPen base class. -/
structure PenState where
  identifier : String × Option Nat
  qcolor : QColor
  deriving DecidableEq, Repr

/-- QPen.color(): NamedPen does not override it, so reading the color of a pen
returns the stored QColor and consults no palette. -/
def penColor (p : PenState) : QColor :=
  p.qcolor

/-- NamedPen._updateQColor.  Looks the name up in functions.Colors (the
color_dict argument of the source is bound but never read; the lookup always
goes to fn.Colors).  A missing name raises KeyError: the `except ValueError`
clause in the source never matches a dict lookup failure, so the KeyError
propagates to the caller.  When alpha is set, qcol.setAlpha mutates the
QColor object on the heap, then super().setColor stores a copy in the pen. -/
def updateQColor (heap : Heap) (colors : PyDict Addr) (pen : PenState) :
    Except PyError Unit × PenState × Heap :=
  match List.lookup pen.identifier.1 colors with
  | none => (.error (.keyError pen.identifier.1), pen, heap)
  | some addr =>
    match pen.identifier.2 with
    | none => (.ok (), { pen with qcolor := heap addr }, heap)
    | some al =>
      let heap' : Heap := fun i => if i = addr then setAlphaC (heap i) al else heap i
      (.ok (), { pen with qcolor := heap' addr }, heap')

/-- NamedPen.__init__: store the identifier, resolve it through _updateQColor
(any error propagates before registration), then register with the color
manager.  A fresh QPen is black before setColor runs. -/
def namedPen_init (w : World) (selfId : ObjId) (name : String) (alpha : Option Nat) :
    Except PyError (PenState × World) :=
  let pen0 : PenState := { identifier := (name, alpha), qcolor := ⟨0, 0, 0, 255⟩ }
  match updateQColor w.heap w.colors pen0 with
  | (.error e, _, _) => .error e
  | (.ok _, pen, heap') =>
    .ok (pen,
      { w with
        heap := heap',
        registered_objects :=
          if selfId ∈ w.registered_objects then w.registered_objects
          else w.registered_objects ++ [selfId] })

/-- The first argument of NamedPen.setColor: None, a color name, or a QColor
(the AxisItem alpha-adjustment workaround). -/
inductive ColorArg where
  | noneArg
  | colorName (s : String)
  | qcolor (c : QColor)
  deriving DecidableEq, Repr

/-- NamedPen.setColor: compute the new identifier, store it, then call
_updateQColor.  On a lookup failure the identifier has already been updated
but the stored QColor is untouched and the error reaches the caller. -/
def setColor (heap : Heap) (colors : PyDict Addr) (pen : PenState)
    (nameArg : ColorArg) (alphaArg : Option Nat) :
    Except PyError Unit × PenState × Heap :=
  let resolved : String × Option Nat :=
    match nameArg with
    | .noneArg => (pen.identifier.1, alphaArg)
    | .qcolor c =>
      (pen.identifier.1, match alphaArg with | none => some c.a | some al => some al)
    | .colorName s => (s, alphaArg)
  updateQColor heap colors { pen with identifier := resolved }

/-- NamedPen.setAlpha: keep the name, replace the alpha, refresh the color. -/
def penSetAlpha (heap : Heap) (colors : PyDict Addr) (pen : PenState)
    (alpha : Option Nat) :
    Except PyError Unit × PenState × Heap :=
  updateQColor heap colors { pen with identifier := (pen.identifier.1, alpha) }

/-- NamedPen.paletteChange: re-resolve the stored identifier in color_dict
(functions.Colors when called with None).  A name missing from the dict
raises KeyError (again the `except ValueError` clause cannot catch it); when
alpha is set, qcol.setAlpha mutates the palette object on the heap. -/
def penPaletteChange (heap : Heap) (colors : PyDict Addr) (pen : PenState)
    (color_dict : Option (PyDict Addr)) :
    Except PyError Unit × PenState × Heap :=
  let cd := color_dict.getD colors
  match List.lookup pen.identifier.1 cd with
  | none => (.error (.keyError pen.identifier.1), pen, heap)
  | some addr =>
    match pen.identifier.2 with
    | none => (.ok (), { pen with qcolor := heap addr }, heap)
    | some al =>
      let heap' : Heap := fun i => if i = addr then setAlphaC (heap i) al else heap i
      (.ok (), { pen with qcolor := heap' addr }, heap')

/-- The color currently denoted by a name under a palette and heap: what a
freshly resolving reader observes for that name. -/
def currentColorOf (heap : Heap) (colors : PyDict Addr) (n : String) : QColor :=
  match List.lookup n colors with
  | some addr => heap addr
  | none => ⟨0, 0, 0, 255⟩

/- graphicsItems/TargetItem.py ---------------------------------------------

   Geometry is idealised over the reals.  A QPainterPath is represented by
   the list of its control points: an affine QTransform maps a path exactly
   by mapping every control point.  TargetItem positions (self._pos) are
   idealised over the rationals so that the inequality test of setPos stays
   decidable; the two aspects never interact in the source. -/

/-- An affine QTransform, row-vector convention:
a point p maps to p * M + (dx, dy) with M = [[m11, m12], [m21, m22]]. -/
structure Aff where
  m11 : ℝ
  m12 : ℝ
  m21 : ℝ
  m22 : ℝ
  dx : ℝ
  dy : ℝ

/-- QTransform.map on a point. -/
def amap (t : Aff) (p : ℝ × ℝ) : ℝ × ℝ :=
  (t.m11 * p.1 + t.m21 * p.2 + t.dx, t.m12 * p.1 + t.m22 * p.2 + t.dy)

/-- Determinant of the linear part. -/
def adet (t : Aff) : ℝ :=
  t.m11 * t.m22 - t.m12 * t.m21

/-- fn.invertQTransform: the exact inverse of an invertible affine
QTransform (adjugate over the determinant). -/
noncomputable def invertQTransform (t : Aff) : Aff :=
  { m11 := t.m22 / adet t
    m12 := -t.m12 / adet t
    m21 := -t.m21 / adet t
    m22 := t.m11 / adet t
    dx := (t.m21 * t.dy - t.m22 * t.dx) / adet t
    dy := (t.m12 * t.dx - t.m11 * t.dy) / adet t }

/-- math.atan2, by quadrant. -/
noncomputable def atan2R (y x : ℝ) : ℝ :=
  if 0 < x then Real.arctan (y / x)
  else if x < 0 then
    if 0 ≤ y then Real.arctan (y / x) + Real.pi else Real.arctan (y / x) - Real.pi
  else if 0 < y then Real.pi / 2
  else if y < 0 then -(Real.pi / 2)
  else 0

/-- The transform tr built in generateShape: tr.translate(devPos);
tr.rotate(va degrees).  Qt applies the later operation to the point first,
so tr maps p to devPos + R(va) p, with QTransform.rotate matrix
[[cos va, sin va], [-sin va, cos va]]. -/
noncomputable def trTransform (devPos : ℝ × ℝ) (va : ℝ) : Aff :=
  { m11 := Real.cos va
    m12 := Real.sin va
    m21 := -Real.sin va
    m22 := Real.cos va
    dx := devPos.1
    dy := devPos.2 }

/-- The state of a TargetItem used by setPos, shape and generateShape. -/
structure TargetItemState where
  pos : ℚ × ℚ
  path : List (ℝ × ℝ)
  shapeCache : Option (List (ℝ × ℝ))

/-- The angle the view x axis makes in device space:
va = atan2(v.y, v.x) for v = dt.map(1, 0) - dt.map(0, 0). -/
noncomputable def deviceAngle (dt : Aff) : ℝ :=
  atan2R ((amap dt (1, 0)).2 - (amap dt (0, 0)).2)
         ((amap dt (1, 0)).1 - (amap dt (0, 0)).1)

/-- TargetItem.generateShape.  With no device transform it caches the raw
path in self._shape and returns None; otherwise it returns the fixed path
rotated by the device angle, translated to the device position, and mapped
back into item coordinates through the inverted device transform. -/
noncomputable def generateShape (dt? : Option Aff) (it : TargetItemState) :
    Option (List (ℝ × ℝ)) × TargetItemState :=
  match dt? with
  | none => (none, { it with shapeCache := some it.path })
  | some dt =>
    let va := deviceAngle dt
    let dti := invertQTransform dt
    let devPos := amap dt (0, 0)
    let tr := trTransform devPos va
    (some (it.path.map (fun p => amap dti (amap tr p))), it)

/-- TargetItem.shape: return the cached shape, or recompute and cache it. -/
noncomputable def shape (dt? : Option Aff) (it : TargetItemState) :
    List (ℝ × ℝ) × TargetItemState :=
  match it.shapeCache with
  | some s => (s, it)
  | none =>
    match generateShape dt? it with
    | (none, it1) => (it1.path, it1)
    | (some s, it1) => (s, { it1 with shapeCache := some s })

/-- TargetItem.viewTransformChanged: invalidate the cached shape. -/
def viewTransformChanged (it : TargetItemState) : TargetItemState :=
  { it with shapeCache := none }

/-- The device-space image generateShape aims at: the fixed target path
rotated by the device angle of the view x axis and translated to the device
position of the item (and nothing else: no dependence on the view scale). -/
noncomputable def deviceTargetPath (dt : Aff) (path : List (ℝ × ℝ)) : List (ℝ × ℝ) :=
  path.map (amap (trTransform (amap dt (0, 0)) (deviceAngle dt)))

/-- The argument of TargetItem.setPos and the offset argument of
TargetLabel.__init__: a tuple, list, QPointF or QPoint is accepted, any
other runtime type is rejected. -/
inductive PosArg where
  | tuple (x y : ℚ)
  | listArg (x y : ℚ)
  | pointF (x y : ℚ)
  | point (x y : Int)
  | other (descr : String)
  deriving DecidableEq, Repr

/-- Events TargetItem.setPos can emit. -/
inductive TIEvent where
  | sigPositionChanged
  deriving DecidableEq, Repr

/-- TargetItem.setPos: convert the accepted types to a coordinate pair or
raise TypeError; store and signal only when the position changed. -/
def TargetItem_setPos (s : TargetItemState) (pos : PosArg) :
    Except PyError Unit × TargetItemState × List TIEvent :=
  match pos with
  | .tuple x y => TargetItem_setPosCore s (x, y)
  | .listArg x y => TargetItem_setPosCore s (x, y)
  | .pointF x y => TargetItem_setPosCore s (x, y)
  | .point x y => TargetItem_setPosCore s ((x : ℚ), (y : ℚ))
  | .other _ => (.error (.typeError ""), s, [])
where
  TargetItem_setPosCore (s : TargetItemState) (newPos : ℚ × ℚ) :
      Except PyError Unit × TargetItemState × List TIEvent :=
    if s.pos ≠ newPos then
      (.ok (), { s with pos := newPos }, [TIEvent.sigPositionChanged])
    else
      (.ok (), s, [])

/-- The offset-validation step of TargetLabel.__init__: a tuple or list is
splatted into setPos, a QPoint or QPointF is passed through, anything else
raises TypeError. -/
def TargetLabel_initOffset (offset : PosArg) : Except PyError (ℚ × ℚ) :=
  match offset with
  | .tuple x y => .ok (x, y)
  | .listArg x y => .ok (x, y)
  | .pointF x y => .ok (x, y)
  | .point x y => .ok ((x : ℚ), (y : ℚ))
  | .other _ => .error (.typeError "Offset parameter is the wrong data type")

/- widgets/PathButton.py ---------------------------------------------------

   The module imports only `functions as fn` and `QtCore, QtGui` from the Qt
   shim, yet the class statement reads the name QtWidgets for its base class
   QtWidgets.QPushButton.  We model the module-level name resolution Python
   performs when it executes that class statement. -/

/-- The names bound at module level in widgets/PathButton.py when the class
statement executes: the two import statements and __all__. -/
def pathButtonModuleGlobals : List String :=
  ["fn", "QtCore", "QtGui", "__all__"]

/-- Python name resolution at module scope: an unbound name raises
NameError. -/
def resolveName (globalNames : List String) (n : String) : Except PyError Unit :=
  if n ∈ globalNames then .ok () else .error (.nameError n)

/-- Executing `class PathButton(QtWidgets.QPushButton)` first evaluates the
base-class expression, which looks up QtWidgets in the module globals. -/
def pathButtonClassStatement : Except PyError Unit :=
  resolveName pathButtonModuleGlobals "QtWidgets"

/- Helper lemmas -----------------------------------------------------------/

/-- Updating a dict with a key-disjoint, duplicate-free dict appends it. -/
theorem dictUpdate_append {A : Type} (d : PyDict A) :
    ∀ acc : PyDict A, (dictKeys d).Nodup →
      (∀ k ∈ dictKeys d, k ∉ dictKeys acc) →
      dictUpdate acc d = acc ++ d := by
  induction d with
  | nil => intro acc _ _; simp [dictUpdate]
  | cons p rest ih =>
    intro acc hnd hdisj
    obtain ⟨k, v⟩ := p
    have hcons : dictKeys ((k, v) :: rest) = k :: dictKeys rest := rfl
    have hnd' : (k :: dictKeys rest).Nodup := hcons ▸ hnd
    have hk : k ∉ dictKeys acc :=
      hdisj k (by rw [hcons]; exact List.mem_cons_self k (dictKeys rest))
    have hins : dictInsert acc k v = acc ++ [(k, v)] := by
      simp only [dictInsert]
      rw [if_neg]
      simpa using hk
    have hdisj2 : ∀ x ∈ dictKeys rest, x ∉ dictKeys (acc ++ [(k, v)]) := by
      intro x hx
      have hxk : x ≠ k := fun hxe => (List.nodup_cons.mp hnd').1 (hxe ▸ hx)
      have hxacc : x ∉ dictKeys acc :=
        hdisj x (by rw [hcons]; exact List.mem_cons_of_mem k hx)
      intro hmem
      have hsplit : x ∈ dictKeys acc ++ [k] := by simpa [dictKeys] using hmem
      rcases List.mem_append.mp hsplit with h1 | h2
      · exact hxacc h1
      · exact hxk (List.mem_singleton.mp h2)
    have hstep : dictUpdate acc ((k, v) :: rest) = dictUpdate (acc ++ [(k, v)]) rest := by
      simp [dictUpdate, hins]
    rw [hstep, ih (acc ++ [(k, v)]) hnd'.of_cons hdisj2]
    simp

/-- dict.clear() followed by dict.update(d) leaves exactly d. -/
theorem dictUpdate_nil {A : Type} (d : PyDict A) (hnd : (dictKeys d).Nodup) :
    dictUpdate ([] : PyDict A) d = d := by
  simpa using dictUpdate_append d [] hnd (by simp [dictKeys])

/-- When every key of DEFAULT_COLORS occurs in d, the validation loop of
redefinePalette finds no missing key. -/
theorem find?_missing_eq_none (d : PyDict Addr)
    (hall : ∀ k ∈ dictKeys DEFAULT_COLORS, k ∈ dictKeys d) :
    (dictKeys DEFAULT_COLORS).find? (missingIn d) = none := by
  rw [List.find?_eq_none]
  intro x hx
  simpa [missingIn] using hall x hx

/- Claim theorems: NamedColorManager --------------------------------------/

/-- C1: redefinePalette with a non-None dict missing at least one key of
DEFAULT_COLORS raises ValueError naming a missing key, and fails atomically:
the palette mapping (and all manager state) is unchanged and no registered
paletteChange callback and no signal emission occurs. -/
theorem redefinePalette_missingKey_atomic (st : NCMState) (d : PyDict Addr)
    (hmiss : ∃ k ∈ dictKeys DEFAULT_COLORS, k ∉ dictKeys d) :
    ∃ k, k ∈ dictKeys DEFAULT_COLORS ∧ k ∉ dictKeys d ∧
      redefinePalette st (some d) =
        (.error (.valueError ("Palette definition is missing " ++ k)), st, []) := by
  obtain ⟨k, hk, hknot⟩ := hmiss
  have hsome : ((dictKeys DEFAULT_COLORS).find? (missingIn d)).isSome := by
    rw [List.find?_isSome]
    exact ⟨k, hk, by simpa [missingIn] using hknot⟩
  obtain ⟨k0, hk0⟩ := Option.isSome_iff_exists.mp hsome
  refine ⟨k0, List.mem_of_find?_eq_some hk0, ?_, ?_⟩
  · have hp := List.find?_some hk0
    simpa [missingIn] using hp
  · simp [redefinePalette, hk0]

/-- C1 witness: a palette defining only the key b is rejected without any
state change or callback. -/
theorem redefinePalette_missingKey_atomic_witness :
    (∃ k ∈ dictKeys DEFAULT_COLORS, k ∉ dictKeys [(("b" : String), (0 : Addr))]) ∧
    (∃ k, k ∈ dictKeys DEFAULT_COLORS ∧ k ∉ dictKeys [(("b" : String), (0 : Addr))] ∧
      redefinePalette ⟨DEFAULT_COLORS, [7]⟩ (some [("b", 0)]) =
        (.error (.valueError ("Palette definition is missing " ++ k)),
         ⟨DEFAULT_COLORS, [7]⟩, [])) :=
  ⟨by decide, redefinePalette_missingKey_atomic ⟨DEFAULT_COLORS, [7]⟩ [("b", 0)] (by decide)⟩

/-- C3: redefinePalette with a non-None dict containing every key of
DEFAULT_COLORS succeeds and replaces the palette mapping wholesale: the new
mapping is exactly the given dict, with all previous entries gone. -/
theorem redefinePalette_replacesWholesale (st : NCMState) (d : PyDict Addr)
    (hnd : (dictKeys d).Nodup)
    (hall : ∀ k ∈ dictKeys DEFAULT_COLORS, k ∈ dictKeys d) :
    (redefinePalette st (some d)).1 = .ok () ∧
    (redefinePalette st (some d)).2.1.color_dic = d ∧
    (redefinePalette st (some d)).2.1.registered_objects = st.registered_objects := by
  have hfind := find?_missing_eq_none d hall
  refine ⟨?_, ?_, ?_⟩ <;>
    simp [redefinePalette, hfind, dictUpdate_nil d hnd]

/-- C3 witness: redefining the palette of a manager holding a one-entry
mapping with the full default palette replaces the mapping exactly. -/
theorem redefinePalette_replacesWholesale_witness :
    ((dictKeys DEFAULT_COLORS).Nodup ∧
      ∀ k ∈ dictKeys DEFAULT_COLORS, k ∈ dictKeys DEFAULT_COLORS) ∧
    ((redefinePalette ⟨[("old", 3)], [5]⟩ (some DEFAULT_COLORS)).1 = .ok () ∧
      (redefinePalette ⟨[("old", 3)], [5]⟩ (some DEFAULT_COLORS)).2.1.color_dic =
        DEFAULT_COLORS ∧
      (redefinePalette ⟨[("old", 3)], [5]⟩ (some DEFAULT_COLORS)).2.1.registered_objects =
        [5]) :=
  ⟨⟨by decide, fun _ hk => hk⟩,
   redefinePalette_replacesWholesale ⟨[("old", 3)], [5]⟩ DEFAULT_COLORS
     (by decide) (fun _ hk => hk)⟩

/-- C4: a successful redefinePalette invokes paletteChange exactly once on
every registered (alive) object, passing the new palette mapping, and then
emits paletteHasChangedSignal as the final event. -/
theorem redefinePalette_notifiesAll (st : NCMState) (d : PyDict Addr)
    (hnd : (dictKeys d).Nodup)
    (hall : ∀ k ∈ dictKeys DEFAULT_COLORS, k ∈ dictKeys d)
    (hreg : st.registered_objects.Nodup) :
    (redefinePalette st (some d)).1 = .ok () ∧
    (redefinePalette st (some d)).2.2 =
      st.registered_objects.map (fun o => NCMEvent.call o d) ++ [NCMEvent.hasChangedSignal] ∧
    ∀ o ∈ st.registered_objects,
      ((redefinePalette st (some d)).2.2).count (NCMEvent.call o d) = 1 := by
  have hfind := find?_missing_eq_none d hall
  have hupd := dictUpdate_nil d hnd
  have hev : (redefinePalette st (some d)).2.2 =
      st.registered_objects.map (fun o => NCMEvent.call o d)
        ++ [NCMEvent.hasChangedSignal] := by
    simp [redefinePalette, hfind, hupd]
  refine ⟨by simp [redefinePalette, hfind], hev, ?_⟩
  intro o ho
  rw [hev, List.count_append]
  have hinj : Function.Injective (fun o => NCMEvent.call o d) := by
    intro a b hab
    simpa using hab
  rw [List.count_map_of_injective _ _ hinj]
  have h1 : st.registered_objects.count o = 1 := List.count_eq_one_of_mem hreg ho
  have h2 : [NCMEvent.hasChangedSignal].count (NCMEvent.call o d) = 0 := by
    rw [List.count_eq_zero]
    simp
  omega

/-- C4 witness: with two registered objects, both receive exactly one
paletteChange call carrying the new mapping, then the signal is emitted. -/
theorem redefinePalette_notifiesAll_witness :
    ((dictKeys DEFAULT_COLORS).Nodup ∧ ([0, 1] : List ObjId).Nodup) ∧
    ((redefinePalette ⟨DEFAULT_COLORS, [0, 1]⟩ (some DEFAULT_COLORS)).1 = .ok () ∧
      (redefinePalette ⟨DEFAULT_COLORS, [0, 1]⟩ (some DEFAULT_COLORS)).2.2 =
        ([0, 1] : List ObjId).map (fun o => NCMEvent.call o DEFAULT_COLORS)
          ++ [NCMEvent.hasChangedSignal] ∧
      ∀ o ∈ ([0, 1] : List ObjId),
        ((redefinePalette ⟨DEFAULT_COLORS, [0, 1]⟩ (some DEFAULT_COLORS)).2.2).count
          (NCMEvent.call o DEFAULT_COLORS) = 1) :=
  ⟨⟨by decide, by decide⟩,
   redefinePalette_notifiesAll ⟨DEFAULT_COLORS, [0, 1]⟩ DEFAULT_COLORS
     (by decide) (fun _ hk => hk) (by decide)⟩

/-- C9: redefinePalette(None) skips the missing-key validation, clears the
shared palette, and raises TypeError from dict.update(None), leaving the
palette empty with no callback invoked and no signal emitted. -/
theorem redefinePalette_none_clears (st : NCMState) :
    redefinePalette st none =
      (.error (.typeError "NoneType object is not iterable"),
       { st with color_dic := [] }, []) :=
  rfl

/- Claim theorems: NamedPen ------------------------------------------------/

/-- The world right after the manager installed the default palette:
functions.Colors is DEFAULT_COLORS over the default heap, nothing
registered yet. -/
def w0 : World :=
  { heap := defaultHeap, colors := DEFAULT_COLORS, registered_objects := [] }

/-- C2: a color name absent from the active palette (functions.Colors) makes
NamedPen fail with an error raised to the caller, on every path: __init__,
setColor with that name, and paletteChange; the stored QColor is never
silently kept as a substitute result nor replaced. -/
theorem namedPen_unknownName_raises (w : World) (selfId : ObjId) (n : String)
    (alphaArg : Option Nat) (pen : PenState)
    (hmiss : List.lookup n w.colors = none) :
    namedPen_init w selfId n alphaArg = .error (.keyError n) ∧
    ((setColor w.heap w.colors pen (.colorName n) alphaArg).1 = .error (.keyError n) ∧
      (setColor w.heap w.colors pen (.colorName n) alphaArg).2.1.qcolor = pen.qcolor ∧
      (setColor w.heap w.colors pen (.colorName n) alphaArg).2.2 = w.heap) ∧
    (pen.identifier.1 = n →
      (penPaletteChange w.heap w.colors pen none).1 = .error (.keyError n)) := by
  refine ⟨?_, ⟨?_, ?_, ?_⟩, ?_⟩
  · simp [namedPen_init, updateQColor, hmiss]
  · simp [setColor, updateQColor, hmiss]
  · simp [setColor, updateQColor, hmiss]
  · simp [setColor, updateQColor, hmiss]
  · intro hname
    simp [penPaletteChange, hname, hmiss]

/-- C2 witness: the name q is not in the default palette, and all three
paths reject it. -/
theorem namedPen_unknownName_raises_witness :
    List.lookup "q" w0.colors = none ∧
    namedPen_init w0 0 "q" none = .error (.keyError "q") :=
  ⟨by decide,
   (namedPen_unknownName_raises w0 0 "q" none
      ⟨("q", none), ⟨0, 0, 0, 255⟩⟩ (by decide)).1⟩

/-- First step of the C5 scenario: a pen named r with no alpha is created in
the freshly initialised world. -/
def c5Step1 : PenState × World :=
  ((namedPen_init w0 1 "r" none).toOption).getD (⟨("", none), ⟨0, 0, 0, 0⟩⟩, w0)

/-- Second step of the C5 scenario: a second pen named r with alpha 7 is
created; its _updateQColor mutates the shared palette object for r. -/
def c5Step2 : PenState × World :=
  ((namedPen_init c5Step1.2 2 "r" (some 7)).toOption).getD (⟨("", none), ⟨0, 0, 0, 0⟩⟩, w0)

/-- C5 counterexample: resolution is not lazy.  After the two constructions
above, the shared palette currently maps r to a color with alpha 7, but
reading the first pen still yields the color captured when its name was
assigned (alpha 255).  If the concrete color were looked up at read time
rather than captured at assignment time, the two would agree. -/
theorem namedPen_lazyResolution_counterexample :
    (namedPen_init w0 1 "r" none).isOk = true ∧
    (namedPen_init c5Step1.2 2 "r" (some 7)).isOk = true ∧
    currentColorOf c5Step2.2.heap c5Step2.2.colors "r" = ⟨255, 0, 0, 7⟩ ∧
    penColor c5Step1.1 = ⟨255, 0, 0, 255⟩ ∧
    penColor c5Step1.1 ≠ currentColorOf c5Step2.2.heap c5Step2.2.colors "r" := by
  refine ⟨?_, ?_, ?_, ?_, ?_⟩ <;> decide

/-- C5 amended: a NamedPen holds the (name, alpha) identifier pair, but
resolves it eagerly, not lazily: the concrete QColor is looked up from the
shared palette and captured into the pen at the time the name is assigned,
and re-captured on each paletteChange callback; reading the pen returns the
captured copy without consulting the palette. -/
theorem namedPen_eagerCapture (w : World) (selfId : ObjId) (n : String) (addr : Addr)
    (hlk : List.lookup n w.colors = some addr) :
    (∃ w', namedPen_init w selfId n none =
        .ok ({ identifier := (n, none), qcolor := w.heap addr }, w')) ∧
    (∀ (pen : PenState) (heap2 : Heap) (d : PyDict Addr) (addr2 : Addr),
        pen.identifier = (n, none) → List.lookup n d = some addr2 →
        penPaletteChange heap2 w.colors pen (some d) =
          (.ok (), { pen with qcolor := heap2 addr2 }, heap2)) ∧
    (∀ pen : PenState, penColor pen = pen.qcolor) := by
  refine ⟨?_, ?_, fun _ => rfl⟩
  · refine ⟨?_, ?_⟩
    · exact { w with
        heap := w.heap,
        registered_objects :=
          if selfId ∈ w.registered_objects then w.registered_objects
          else w.registered_objects ++ [selfId] }
    · simp [namedPen_init, updateQColor, hlk]
  · intro pen heap2 d addr2 hid hlk2
    simp [penPaletteChange, hid, hlk2]

/-- C5 amended witness: the default palette resolves r at address 2, and the
amended statement holds there. -/
theorem namedPen_eagerCapture_witness :
    List.lookup "r" w0.colors = some 2 ∧
    (∃ w', namedPen_init w0 1 "r" none =
        .ok ({ identifier := ("r", none), qcolor := w0.heap 2 }, w')) :=
  ⟨by decide, (namedPen_eagerCapture w0 1 "r" 2 (by decide)).1⟩

/-- C10: applying an opacity mutates shared palette state.  For a pen whose
alpha is set, _updateQColor and paletteChange call setAlpha on the QColor
object the palette holds for the name, so the palette entry itself changes,
and any other pen resolving the same name afterwards observes the changed
alpha. -/
theorem namedPen_alphaMutatesPalette (heap : Heap) (colors : PyDict Addr)
    (pen pen2 : PenState) (n : String) (al : Nat) (addr : Addr)
    (hpen : pen.identifier = (n, some al))
    (hlk : List.lookup n colors = some addr) :
    ((updateQColor heap colors pen).2.2) addr = setAlphaC (heap addr) al ∧
    ((penPaletteChange heap colors pen (some colors)).2.2) addr =
      setAlphaC (heap addr) al ∧
    (pen2.identifier = (n, none) →
      (updateQColor ((updateQColor heap colors pen).2.2) colors pen2).2.1.qcolor =
        setAlphaC (heap addr) al) := by
  refine ⟨?_, ?_, ?_⟩
  · simp [updateQColor, hpen, hlk]
  · simp [penPaletteChange, hpen, hlk]
  · intro hid2
    simp [updateQColor, hpen, hid2, hlk]

/-- C10 witness: a pen named r with alpha 7 rewrites the default palette
object at address 2, and a second pen named r then reads alpha 7. -/
theorem namedPen_alphaMutatesPalette_witness :
    (⟨("r", some 7), ⟨0, 0, 0, 255⟩⟩ : PenState).identifier = ("r", some 7) ∧
    List.lookup "r" DEFAULT_COLORS = some 2 ∧
    ((updateQColor defaultHeap DEFAULT_COLORS ⟨("r", some 7), ⟨0, 0, 0, 255⟩⟩).2.2) 2 =
      setAlphaC (defaultHeap 2) 7 :=
  ⟨rfl, by decide,
   (namedPen_alphaMutatesPalette defaultHeap DEFAULT_COLORS
      ⟨("r", some 7), ⟨0, 0, 0, 255⟩⟩ ⟨("r", none), ⟨0, 0, 0, 255⟩⟩
      "r" 7 2 rfl (by decide)).1⟩

/- Claim theorems: TargetItem and PathButton -------------------------------/

/-- Mapping through a transform after its exact inverse is the identity. -/
theorem amap_invertQTransform (t : Aff) (h : adet t ≠ 0) (q : ℝ × ℝ) :
    amap t (amap (invertQTransform t) q) = q := by
  have h' : t.m11 * t.m22 - t.m12 * t.m21 ≠ 0 := by simpa [adet] using h
  obtain ⟨qx, qy⟩ := q
  simp only [amap, invertQTransform, adet, Prod.mk.injEq]
  constructor <;> (field_simp; ring)

/-- After a view-transform change, the freshly recomputed shape maps through
the device transform to exactly the translated-and-rotated fixed path. -/
theorem shape_device_eq (dt : Aff) (it : TargetItemState) (hdet : adet dt ≠ 0) :
    (shape (some dt) (viewTransformChanged it)).1.map (amap dt) =
      deviceTargetPath dt it.path := by
  simp only [shape, viewTransformChanged, generateShape, deviceTargetPath,
    List.map_map, Function.comp]
  exact List.map_congr_left fun p _ => amap_invertQTransform dt hdet _

/-- C6: for an invertible device transform, the shape recomputed after a
view-transform change is screen-space invariant: mapped back through the
device transform it is the fixed path translated to the device position of
the item and rotated by the device angle of the view x axis, so it depends
on the view only through those two data and not through the zoom; and
viewTransformChanged invalidates the cached shape, which shape() then
recomputes and re-caches. -/
theorem targetItem_shape_screenInvariant (dt : Aff) (it : TargetItemState)
    (hdet : adet dt ≠ 0) :
    (viewTransformChanged it).shapeCache = none ∧
    (shape (some dt) (viewTransformChanged it)).1.map (amap dt) =
      deviceTargetPath dt it.path ∧
    (shape (some dt) (viewTransformChanged it)).2.shapeCache =
      some ((shape (some dt) (viewTransformChanged it)).1) ∧
    ∀ dt2 : Aff, adet dt2 ≠ 0 → amap dt2 (0, 0) = amap dt (0, 0) →
      deviceAngle dt2 = deviceAngle dt →
      (shape (some dt2) (viewTransformChanged it)).1.map (amap dt2) =
        (shape (some dt) (viewTransformChanged it)).1.map (amap dt) := by
  refine ⟨rfl, shape_device_eq dt it hdet, ?_, ?_⟩
  · simp [shape, viewTransformChanged, generateShape]
  · intro dt2 h2 hpos hang
    rw [shape_device_eq dt2 it h2, shape_device_eq dt it hdet]
    simp only [deviceTargetPath]
    rw [hpos, hang]

/-- C6 witness: a pure zoom by factor two is invertible, and the recomputed
shape maps back through it to the translated-and-rotated fixed path. -/
theorem targetItem_shape_screenInvariant_witness :
    adet ⟨2, 0, 0, 2, 0, 0⟩ ≠ 0 ∧
    (shape (some ⟨2, 0, 0, 2, 0, 0⟩)
        (viewTransformChanged ⟨(0, 0), [(1, 0)], none⟩)).1.map
      (amap ⟨2, 0, 0, 2, 0, 0⟩) =
      deviceTargetPath ⟨2, 0, 0, 2, 0, 0⟩ [(1, 0)] :=
  ⟨by norm_num [adet],
   (targetItem_shape_screenInvariant ⟨2, 0, 0, 2, 0, 0⟩ ⟨(0, 0), [(1, 0)], none⟩
      (by norm_num [adet])).2.1⟩

/-- C7: a position argument of any type other than tuple, list, QPointF or
QPoint makes TargetItem.setPos raise TypeError with the stored position
unchanged and no position-changed signal emitted, and makes the offset
validation of TargetLabel.__init__ raise TypeError as well. -/
theorem targetItem_badPosType_raises (s : TargetItemState) (descr : String) :
    TargetItem_setPos s (.other descr) = (.error (.typeError ""), s, []) ∧
    TargetLabel_initOffset (.other descr) =
      .error (.typeError "Offset parameter is the wrong data type") :=
  ⟨rfl, rfl⟩

/-- C8: executing the class statement of widgets/PathButton.py fails with
NameError, because QtWidgets is referenced but never imported; hence no
PathButton can be constructed at all. -/
theorem pathButton_classStatement_nameError :
    pathButtonClassStatement = .error (.nameError "QtWidgets") := by
  simp [pathButtonClassStatement, resolveName, pathButtonModuleGlobals]
